import Mathlib

/-
Verification development for the live-wspsr-tui core: a shallow embedding of the
discovery worker (src/wspsr/monitor.py, peek_worker) and of the task pipeline
(src/wspsr/screens/selection.py, SelectionScreen), together with theorems about
the behaviours described in the specification.

External library behaviour (python-magic, lstat, pymediainfo, libarchive,
mimetypes.guess_type, subprocess exit codes) is modelled as input data: a
FileInput record carries what those calls would return for one path, and an Env
record carries the exit codes of the external commands the pipeline invokes.
The repository's own control flow is translated statement by statement.
-/

namespace Wspsr

/-- Status enumeration from selection.py (class TranscriptionStatus). -/
inductive TranscriptionStatus where
  | SKIPPED
  | WAITING
  | UNPACKING
  | LOADING
  | TRANSCRIBING
  | DIARIZING
  | ENCRYPTING
  | RETURNING
  | FAILED
  | COMPLETED
deriving DecidableEq

/-- Per-audio-track metadata map produced by pymediainfo (track.to_data()).
Only the fields the core reads are modelled; each is optional because the
underlying python dict may lack the key. -/
structure Track where
  track_id : Option Int := none
  sampling_rate : Option Int := none
  samples_count : Option Int := none
  duration : Option Int := none
deriving DecidableEq

/-- Outcome of reading the first content block of an archive entry
(entry.get_blocks() in peek_worker): success, or a libarchive ArchiveError
carrying its message string. -/
inductive ReadOutcome where
  | ok
  | archiveError (msg : String)
deriving DecidableEq

/-- One archive entry as seen by peek_worker: the libarchive entry attributes it
reads plus the outcome of the first-block read. -/
structure Entry where
  isreg : Bool
  pathname : String
  size : Int
  ctime : Int
  mtime : Int
  firstBlockRead : ReadOutcome
deriving DecidableEq

/-- Result of libarchive.file_reader on a path: either the open itself raises
ArchiveError (unrecognised format), or it yields the list of entries. -/
inductive ArchiveOpen where
  | failed
  | opened (entries : List Entry)
deriving DecidableEq

/-- Everything peek_worker learns about one path from the external libraries:
magic MIME and format, lstat times and size, the pymediainfo audio-track list
(consulted only for audio/video MIME), and the archive-open outcome (consulted
only otherwise). -/
structure FileInput where
  path : String
  mime : String
  format : String
  size : Int
  ctime : Int
  mtime : Int
  probedAudioTracks : List Track
  archive : ArchiveOpen
deriving DecidableEq

/-- Observation dict built by peek_worker. Optional fields model keys that may
be absent from the python dict: audio_tracks is present exactly for plain
audio/video files, archive_* exactly for archive members, encrypted only once
set. -/
structure Obs where
  path : String
  mime : String
  format : String
  size : Int
  ctime : Int
  mtime : Int
  audio_tracks : Option (List Track) := none
  archive_path : Option String := none
  archive_size : Option Int := none
  archive_ctime : Option Int := none
  archive_mtime : Option Int := none
  encrypted : Option Bool := none
deriving DecidableEq

/-- str.startswith on the characters of the two strings. -/
def strStartsWith (s p : String) : Bool :=
  p.toList.isPrefixOf s.toList

/-- str.endswith on the characters of the two strings. -/
def strEndsWith (s p : String) : Bool :=
  p.toList.reverse.isPrefixOf s.toList.reverse

/-- Models mimetypes.guess_type (extension only, no content sniffing) for the
filename extensions exercised in this development; an unrecognised extension
yields the empty string, matching the python fallback guess_type(...)[0] or ''. -/
def guessType (name : String) : String :=
  if strEndsWith name ".wav" then "audio/x-wav"
  else if strEndsWith name ".mp3" then "audio/mpeg"
  else if strEndsWith name ".mp4" then "video/mp4"
  else if strEndsWith name ".ogg" then "audio/ogg"
  else if strEndsWith name ".txt" then "text/plain"
  else ""

/-- MIME test used twice in peek_worker: mime.startswith('audio/') or
mime.startswith('video/'). -/
def mimeIsMedia (m : String) : Bool :=
  strStartsWith m "audio/" || strStartsWith m "video/"

/-- ASCII lower-casing of one character, as str.lower() does on the ASCII
letters appearing in libarchive messages. -/
def asciiLower (c : Char) : Char :=
  if 65 ≤ c.toNat ∧ c.toNat ≤ 90 then Char.ofNat (c.toNat + 32) else c

/-- String lower-casing (e.msg.lower() in peek_worker). -/
def lowerString (s : String) : String :=
  String.mk (s.toList.map asciiLower)

/-- Substring test: needle occurs somewhere inside hay ('needle in hay' on
python strings). -/
def strContains (hay needle : String) : Bool :=
  (List.range (hay.toList.length + 1)).any fun i =>
    needle.toList.isPrefixOf (hay.toList.drop i)

/-- The encryption test of peek_worker: 'encrypted' in e.msg.lower() or
'passphrase' in e.msg.lower(). -/
def isEncryptionMsg (msg : String) : Bool :=
  strContains (lowerString msg) "encrypted" || strContains (lowerString msg) "passphrase"

/-- Entry filter in peek_worker: entry.isreg and an extension-guessed MIME
starting audio/ or video/. -/
def entryMatches (e : Entry) : Bool :=
  e.isreg && mimeIsMedia (guessType e.pathname)

/-- observation.update of the archive fields for one entry (lines 54-59 of
monitor.py). The encrypted field, if any, is left as is. -/
def withArchiveFields (o : Obs) (e : Entry) : Obs :=
  { o with
    archive_path := some e.pathname,
    archive_size := some e.size,
    archive_ctime := some e.ctime,
    archive_mtime := some e.mtime }

/-- Archive-entry loop of peek_worker (lines 38-60 of monitor.py). The obs
argument is the mutable observation variable: each matching entry copies it
(so a previously set encrypted flag is inherited), possibly marks it encrypted
on an encryption/passphrase read error, installs its own archive fields and is
emitted; a non-encryption ArchiveError is re-raised and caught by the outer
handler, which abandons the rest of this archive, keeping what was already
emitted. Non-matching entries leave the variable untouched. -/
def scanEntries (obs : Obs) : List Entry → List Obs
  | [] => []
  | e :: rest =>
    if entryMatches e then
      match e.firstBlockRead with
      | ReadOutcome.ok =>
        let obs2 := withArchiveFields obs e
        obs2 :: scanEntries obs2 rest
      | ReadOutcome.archiveError msg =>
        if isEncryptionMsg msg then
          let obs2 := withArchiveFields { obs with encrypted := some true } e
          obs2 :: scanEntries obs2 rest
        else
          []
    else
      scanEntries obs rest

/-- Base observation dict built for every path (lines 20-27 of monitor.py). -/
def baseObs (f : FileInput) : Obs :=
  { path := f.path, mime := f.mime, format := f.format,
    size := f.size, ctime := f.ctime, mtime := f.mtime }

/-- Processing of one path by peek_worker: audio/video files emit one
observation carrying all probed tracks; other files are opened as archives,
an unrecognised format yields nothing, otherwise the entry loop runs. -/
def peekFile (f : FileInput) : List Obs :=
  if mimeIsMedia f.mime then
    [{ baseObs f with audio_tracks := some f.probedAudioTracks }]
  else
    match f.archive with
    | ArchiveOpen.failed => []
    | ArchiveOpen.opened entries => scanEntries (baseObs f) entries

/-- One item pulled from the worker's input queue: either the path still
exists and inspection yields a FileInput, or the path vanished before
inspection, in which case magic.from_file / lstat raises. -/
inductive QueuedPath where
  | found (f : FileInput)
  | vanished (path : String)
deriving DecidableEq

/-- Worker loop of peek_worker over the queued paths up to the sentinel.
peek_worker wraps no handler around classification, so an exception raised for
a vanished path terminates the loop: the pair returned is the observations
emitted before the exception together with a flag recording whether the loop
crashed (true) or drained its queue normally (false). -/
def workerLoop : List QueuedPath → List Obs × Bool
  | [] => ([], false)
  | QueuedPath.found f :: rest =>
    let r := workerLoop rest
    (peekFile f ++ r.1, r.2)
  | QueuedPath.vanished _ :: _ => ([], true)

/-- Track registry entry: the dict stored in app.audio_tracks by
SelectionScreen.populate_filelist / on_track_added. It is the file observation
minus its audio_tracks list, plus the single audio_track, plus the
extracted_path key that process_queue may later add. -/
structure TrackEntry where
  path : String
  mime : String
  format : String
  size : Int
  ctime : Int
  mtime : Int
  archive_path : Option String := none
  archive_size : Option Int := none
  archive_ctime : Option Int := none
  archive_mtime : Option Int := none
  encrypted : Option Bool := none
  audio_track : Track := {}
  extracted_path : Option String := none
deriving DecidableEq

/-- Observation key built in populate_filelist: the path, extended with
"/" + archive_path when the observation is an archive member. -/
def obsKey (o : Obs) : String :=
  o.path ++ (match o.archive_path with
             | some ap => "/" ++ ap
             | none => "")

/-- Registry entry built in populate_filelist for one track of an observation:
file_entry.copy() with audio_tracks popped and audio_track set. -/
def baseEntry (o : Obs) (t : Track) : TrackEntry :=
  { path := o.path, mime := o.mime, format := o.format,
    size := o.size, ctime := o.ctime, mtime := o.mtime,
    archive_path := o.archive_path, archive_size := o.archive_size,
    archive_ctime := o.archive_ctime, archive_mtime := o.archive_mtime,
    encrypted := o.encrypted, audio_track := t }

/-- Index of one track in the loop of populate_filelist: the enumeration
position, overridden by int(track[track_id]) when present. -/
def trackIndex (i : Nat) (t : Track) : Int :=
  match t.track_id with
  | some tid => tid
  | none => (i : Int)

/-- The (key, registry entry) pairs registered for one observation by
populate_filelist: file_entry.get(audio_tracks, [run-empty-dict]) — the
single-empty-dict default applies only when the key is absent — enumerated,
each track registered under key/index. -/
def discoveredPairs (o : Obs) : List (String × TrackEntry) :=
  let key := obsKey o
  let tracks := o.audio_tracks.getD [{}]
  tracks.enum.map fun p =>
    (key ++ "/" ++ toString (trackIndex p.1 p.2), baseEntry o p.2)

/-- Task option dict (app.defaults and the per-key entries of app.tasks).
Every key is optional, matching the underlying python dict. -/
structure TaskCfg where
  models : Option (List String) := none
  min_speakers : Option String := none
  max_speakers : Option String := none
  prompt : Option String := none
  status : Option TranscriptionStatus := none
deriving DecidableEq

/-- dict.copy() of the defaults followed by dict.update(overrides): a key
present in the overrides wins, otherwise the default is kept. -/
def mergeTask (d o : TaskCfg) : TaskCfg :=
  { models := o.models <|> d.models,
    min_speakers := o.min_speakers <|> d.min_speakers,
    max_speakers := o.max_speakers <|> d.max_speakers,
    prompt := o.prompt <|> d.prompt,
    status := o.status <|> d.status }

/-- The mutable application state read by SelectionScreen: the process-wide
defaults dict and the per-key task dict (app.defaults, app.tasks). -/
structure AppState where
  defaults : TaskCfg
  tasks : List (String × TaskCfg)
deriving DecidableEq

/-- SelectionScreen.get_row_task: task = app.defaults.copy();
task.update(app.tasks.get(row_key, run-empty-dict)); return task. The state is
returned alongside the result to make explicit that the query leaves both the
defaults and the stored overrides as they were. -/
def get_row_task (s : AppState) (key : String) : TaskCfg × AppState :=
  (mergeTask s.defaults ((List.lookup key s.tasks).getD {}), s)

/-- SelectionScreen.get_row_status: the merged task's status key, defaulting
to WAITING. -/
def get_row_status (s : AppState) (key : String) : TranscriptionStatus :=
  ((get_row_task s key).1.status).getD TranscriptionStatus.WAITING

/-- Status string computed by SelectionScreen.update_rows for one row: the
queried status, replaced by SKIPPED when the merged task carries an empty
models list and the queried status is WAITING. Only a table cell is written
from this value; the stored task dict is not touched. -/
def renderedStatus (s : AppState) (key : String) : TranscriptionStatus :=
  let task := (get_row_task s key).1
  let status := get_row_status s key
  if task.models = some [] ∧ status = TranscriptionStatus.WAITING then
    TranscriptionStatus.SKIPPED
  else
    status

/-- os.path.join of two path segments as used for extracted_path: an absolute
second segment replaces the first. -/
def pathJoin (a b : String) : String :=
  if strStartsWith b "/" then b else a ++ "/" ++ b

/-- External commands invoked by process_queue via run_proc. -/
inductive Cmd where
  | unpack
  | transcode
  | transcribe
deriving DecidableEq

/-- Exit codes the environment would return for each external command of one
row of process_queue. -/
structure Env where
  unpackExit : Int
  transcodeExit : Int
  transcribeExit : Int
deriving DecidableEq

/-- Result of processing one row: the sequence of set_row_status calls, the
external commands invoked in order, the registry entry object afterwards, and
whether the row raised an uncaught exception (the KeyError on a merged task
with no models key). -/
structure RowResult where
  statuses : List TranscriptionStatus
  cmds : List Cmd
  entry : TrackEntry
  crashed : Bool
deriving DecidableEq

/-- Stages of process_queue from the LOADING transcode onwards (lines 402-469
of selection.py), entered with the statuses and commands accumulated by the
optional unpack stage. A non-zero transcode exit sets FAILED and stops. The
TRANSCRIBING status is set before the whisper arguments are built, so a merged
task without a models key sets TRANSCRIBING and then raises KeyError. The
transcription exit code is tested by the literal dead condition
ret-nonzero and False, after which RETURNING and COMPLETED follow
unconditionally. -/
def stages (sts : List TranscriptionStatus) (cs : List Cmd) (track : TrackEntry)
    (task : TaskCfg) (env : Env) : RowResult :=
  if env.transcodeExit ≠ 0 then
    { statuses := sts ++ [TranscriptionStatus.LOADING, TranscriptionStatus.FAILED],
      cmds := cs ++ [Cmd.transcode], entry := track, crashed := false }
  else
    match task.models with
    | none =>
      { statuses := sts ++ [TranscriptionStatus.LOADING, TranscriptionStatus.TRANSCRIBING],
        cmds := cs ++ [Cmd.transcode], entry := track, crashed := true }
    | some _ =>
      if env.transcribeExit ≠ 0 ∧ False then
        { statuses := sts ++ [TranscriptionStatus.LOADING, TranscriptionStatus.TRANSCRIBING,
                              TranscriptionStatus.FAILED],
          cmds := cs ++ [Cmd.transcode, Cmd.transcribe], entry := track, crashed := false }
      else
        { statuses := sts ++ [TranscriptionStatus.LOADING, TranscriptionStatus.TRANSCRIBING,
                              TranscriptionStatus.RETURNING, TranscriptionStatus.COMPLETED],
          cmds := cs ++ [Cmd.transcode, Cmd.transcribe], entry := track, crashed := false }

/-- One iteration of the row loop of process_queue (lines 358-469 of
selection.py), given the status the loop queried for the row, the registry
entry, the merged task and the environment's exit codes. A row whose queried
status is not WAITING is skipped; an encrypted entry goes straight to FAILED;
an archive-sourced entry runs the unpack command, failing the row on a
non-zero exit and otherwise writing extracted_path into the registry entry;
then the remaining stages run. -/
def runRow (status : TranscriptionStatus) (track : TrackEntry)
    (task : TaskCfg) (env : Env) : RowResult :=
  if status ≠ TranscriptionStatus.WAITING then
    { statuses := [], cmds := [], entry := track, crashed := false }
  else if track.encrypted.getD false then
    { statuses := [TranscriptionStatus.FAILED], cmds := [], entry := track, crashed := false }
  else
    match track.archive_path with
    | some ap =>
      if env.unpackExit ≠ 0 then
        { statuses := [TranscriptionStatus.UNPACKING, TranscriptionStatus.FAILED],
          cmds := [Cmd.unpack], entry := track, crashed := false }
      else
        stages [TranscriptionStatus.UNPACKING] [Cmd.unpack]
          { track with extracted_path := some (pathJoin track.path ap) } task env
    | none => stages [] [] track task env

/-- Processing of one row keyed in the application state: process_queue reads
the row status via get_row_status and the merged task via get_row_task, then
runs the row. -/
def processRow (s : AppState) (key : String) (track : TrackEntry) (env : Env) : RowResult :=
  runRow (get_row_status s key) track (get_row_task s key).1 env

/-! Concrete inputs used by the claim theorems and their witnesses. -/

/-- A plain audio file whose probe reports two tracks with explicit ids 0 and 2. -/
def c4aMp3 : FileInput :=
  { path := "/media/a.mp3", mime := "audio/mpeg", format := "MPEG audio",
    size := 3, ctime := 1, mtime := 2,
    probedAudioTracks := [{ track_id := some 0 }, { track_id := some 2 }],
    archive := ArchiveOpen.opened [] }

/-- A readable audio member of an archive. -/
def c4Clip : Entry :=
  { isreg := true, pathname := "clip.wav", size := 10, ctime := 3, mtime := 4,
    firstBlockRead := ReadOutcome.ok }

/-- An archive containing one audio member. -/
def c4bZip : FileInput :=
  { path := "/media/b.zip", mime := "application/zip", format := "Zip archive",
    size := 99, ctime := 5, mtime := 6, probedAudioTracks := [],
    archive := ArchiveOpen.opened [c4Clip] }

/-- A plain video file whose probe reports zero audio tracks. -/
def c4Video : FileInput :=
  { path := "/media/v.mp4", mime := "video/mp4", format := "MP4 video",
    size := 5, ctime := 0, mtime := 0, probedAudioTracks := [],
    archive := ArchiveOpen.opened [] }

/-- An archive-member observation, which carries no audio_tracks key. -/
def c4Member : Obs :=
  { path := "/media/b.zip", mime := "application/zip", format := "Zip archive",
    size := 99, ctime := 5, mtime := 6, archive_path := some "clip.wav",
    archive_size := some 10, archive_ctime := some 3, archive_mtime := some 4 }

/-- An archive member whose first-block read fails with a non-encryption error. -/
def c3Corrupt : Entry :=
  { isreg := true, pathname := "clip1.wav", size := 4, ctime := 0, mtime := 0,
    firstBlockRead := ReadOutcome.archiveError "Damaged data block" }

/-- A readable audio member placed after the damaged one. -/
def c3Good : Entry :=
  { isreg := true, pathname := "clip2.wav", size := 5, ctime := 0, mtime := 0,
    firstBlockRead := ReadOutcome.ok }

/-- An archive whose first matching entry fails with a plain read error and
whose second matching entry is readable. -/
def c3Zip : FileInput :=
  { path := "/media/d.zip", mime := "application/zip", format := "Zip archive",
    size := 50, ctime := 0, mtime := 0, probedAudioTracks := [],
    archive := ArchiveOpen.opened [c3Corrupt, c3Good] }

/-- The base observation peek_worker builds for c3Zip before the entry loop. -/
def c3Base : Obs :=
  { path := "/media/d.zip", mime := "application/zip", format := "Zip archive",
    size := 50, ctime := 0, mtime := 0 }

/-- A plain audio file queued behind a vanished path. -/
def c7Song : FileInput :=
  { path := "/media/song.mp3", mime := "audio/mpeg", format := "MPEG audio",
    size := 9, ctime := 0, mtime := 0, probedAudioTracks := [{}],
    archive := ArchiveOpen.opened [] }

/-- Concatenation of strings is associative (on the underlying character
lists). -/
theorem stringAppend_assoc (a b c : String) : a ++ b ++ c = a ++ (b ++ c) := by
  cases a with
  | mk d1 =>
  cases b with
  | mk d2 =>
  cases c with
  | mk d3 =>
  show String.mk (d1 ++ d2 ++ d3) = String.mk (d1 ++ (d2 ++ d3))
  rw [List.append_assoc]

/-! Equation lemmas for the archive-entry loop. -/

/-- A matching entry with a readable first block emits the copied observation
updated with its archive fields and the loop continues from that emission. -/
theorem scanEntries_cons_ok (obs : Obs) (e : Entry) (rest : List Entry)
    (hm : entryMatches e = true) (hr : e.firstBlockRead = ReadOutcome.ok) :
    scanEntries obs (e :: rest) =
      withArchiveFields obs e :: scanEntries (withArchiveFields obs e) rest := by
  rw [scanEntries, if_pos hm, hr]

/-- A matching entry whose first-block read fails with an encryption or
passphrase message emits the copied observation marked encrypted and the loop
continues from that emission. -/
theorem scanEntries_cons_encMsg (obs : Obs) (e : Entry) (rest : List Entry) (msg : String)
    (hm : entryMatches e = true) (hr : e.firstBlockRead = ReadOutcome.archiveError msg)
    (henc : isEncryptionMsg msg = true) :
    scanEntries obs (e :: rest) =
      withArchiveFields { obs with encrypted := some true } e ::
        scanEntries (withArchiveFields { obs with encrypted := some true } e) rest := by
  rw [scanEntries, if_pos hm, hr]
  simp [henc]

/-- A matching entry whose first-block read fails with any other message
re-raises, which the handler around the whole archive catches: the remaining
loop emits nothing. -/
theorem scanEntries_cons_abort (obs : Obs) (e : Entry) (rest : List Entry) (msg : String)
    (hm : entryMatches e = true) (hr : e.firstBlockRead = ReadOutcome.archiveError msg)
    (hn : isEncryptionMsg msg = false) :
    scanEntries obs (e :: rest) = [] := by
  rw [scanEntries, if_pos hm, hr]
  simp [hn]

/-- A non-matching entry is passed over without touching the observation. -/
theorem scanEntries_cons_skip (obs : Obs) (e : Entry) (rest : List Entry)
    (hm : entryMatches e = false) :
    scanEntries obs (e :: rest) = scanEntries obs rest := by
  rw [scanEntries]
  simp [hm]

/-! Claim C3. -/

/-- C3 counterexample: the spec says a non-encryption, non-fatal read error on
one entry suppresses only that entry and scanning continues to the remaining
matching entries. In the code the re-raised ArchiveError is caught by the
handler around the whole archive, so for an archive whose first matching entry
fails with the plain read error "Damaged data block" no observation at all is
emitted, although a later matching entry (c3Good) is present and readable. -/
theorem c3_read_error_aborts_archive_cex :
    entryMatches c3Good = true ∧
    c3Good.firstBlockRead = ReadOutcome.ok ∧
    isEncryptionMsg "Damaged data block" = false ∧
    peekFile c3Zip = [] :=
  ⟨by decide, rfl, by decide, by decide⟩

/-- C3 (amended): when reading the first block of a matching archive entry
fails with any error that is not encryption/passphrase-related, scanning of
that archive stops: neither that entry nor any remaining entry emits an
observation (observations emitted before the failing entry are kept). -/
theorem c3_nonencryption_error_aborts_archive (obs : Obs) (e : Entry)
    (rest : List Entry) (msg : String)
    (hm : entryMatches e = true)
    (hr : e.firstBlockRead = ReadOutcome.archiveError msg)
    (hn : isEncryptionMsg msg = false) :
    scanEntries obs (e :: rest) = [] :=
  scanEntries_cons_abort obs e rest msg hm hr hn

/-- C3 witness: the amended theorem applied to the damaged archive. -/
theorem c3_nonencryption_error_aborts_archive_witness :
    scanEntries c3Base [c3Corrupt, c3Good] = [] :=
  c3_nonencryption_error_aborts_archive c3Base c3Corrupt [c3Good]
    "Damaged data block" (by decide) rfl (by decide)

/-! Claim C4. -/

/-- C4 counterexample: a plain media file probed to have zero audio tracks
produces an observation whose audio_tracks key is present with an empty list,
and populate_filelist registers zero (key, track) pairs for it — the
single-empty-track default of dict.get applies only when the key is absent,
so this observation maps to no pair at all, against the claim's "at least
one". -/
theorem c4_empty_tracklist_no_pairs_cex :
    peekFile c4Video = [{ baseObs c4Video with audio_tracks := some [] }] ∧
    (peekFile c4Video).flatMap discoveredPairs = [] :=
  ⟨by decide, by decide⟩

/-- C4 (amended): track keys are key/index with the explicit track_id as
index when present and the list position otherwise; an observation with NO
track list (an archive member) yields exactly one key with index 0 and an
empty track-info object, and each present track yields exactly one pair — but
an observation whose track list is present and empty (a plain media file with
zero probed audio tracks) yields zero pairs. The two concrete examples of the
spec hold: /media/a.mp3 with track ids 0 and 2 yields /media/a.mp3/0 and
/media/a.mp3/2, and /media/b.zip containing clip.wav yields
/media/b.zip/clip.wav/0. -/
theorem c4_track_key_assignment :
    (∀ o : Obs, o.audio_tracks = none →
      discoveredPairs o = [(obsKey o ++ "/0", baseEntry o {})]) ∧
    (∀ (o : Obs) (ts : List Track), o.audio_tracks = some ts →
      (discoveredPairs o).length = ts.length) ∧
    ((peekFile c4aMp3).flatMap discoveredPairs).map Prod.fst =
      ["/media/a.mp3/0", "/media/a.mp3/2"] ∧
    ((peekFile c4bZip).flatMap discoveredPairs).map Prod.fst =
      ["/media/b.zip/clip.wav/0"] := by
  refine ⟨?_, ?_, by decide, by decide⟩
  · intro o h
    simp only [discoveredPairs, h, Option.getD_some, Option.getD_none, List.enum,
      List.enumFrom, List.map]
    rw [stringAppend_assoc]
    rfl
  · intro o ts h
    simp [discoveredPairs, h]

/-- C4 witness: the amended theorem applied to the archive-member observation
(no track list) and to an observation carrying two tracks. -/
theorem c4_track_key_assignment_witness :
    discoveredPairs c4Member = [(obsKey c4Member ++ "/0", baseEntry c4Member {})] ∧
    (discoveredPairs { c4Member with audio_tracks := some [{}, {}] }).length = 2 :=
  ⟨c4_track_key_assignment.1 c4Member rfl,
   c4_track_key_assignment.2.1 { c4Member with audio_tracks := some [{}, {}] } [{}, {}] rfl⟩

/-! Claim C7. -/

/-- C7 counterexample: with a vanished path at the head of the queue and a
perfectly good audio file queued behind it, the worker loop terminates by
exception having emitted nothing — while the same audio file alone would have
produced an observation. The claimed skip-and-continue behaviour does not
exist in peek_worker. -/
theorem c7_vanished_path_crashes_worker_cex :
    workerLoop [QueuedPath.vanished "/media/gone.mp3", QueuedPath.found c7Song] = ([], true) ∧
    workerLoop [QueuedPath.found c7Song] =
      ([{ baseObs c7Song with audio_tracks := some [{}] }], false) :=
  ⟨rfl, by decide⟩

/-- C7 (amended): when a queued path has vanished at inspection time, the
exception raised by classification propagates out of the worker loop: no
observation is emitted for it, none of the subsequently queued paths are
processed, and the worker crashes (monitor_directory then ends the discovery
sequence through its liveness check). -/
theorem c7_vanished_path_stops_loop (p : String) (rest : List QueuedPath) :
    workerLoop (QueuedPath.vanished p :: rest) = ([], true) :=
  rfl

/-! Claim C9. -/

/-- Once the observation variable carries encrypted = true, every observation
the remaining entry loop emits carries encrypted = true: the copy inherits the
flag, the archive-field update leaves it alone, and nothing ever clears it. -/
theorem scanEntries_encrypted_mono (entries : List Entry) :
    ∀ obs : Obs, obs.encrypted = some true →
      ∀ o ∈ scanEntries obs entries, o.encrypted = some true := by
  induction entries with
  | nil =>
    intro obs _ o ho
    simp [scanEntries] at ho
  | cons e rest ih =>
    intro obs hobs o ho
    by_cases hm : entryMatches e = true
    · cases hfb : e.firstBlockRead with
      | ok =>
        rw [scanEntries_cons_ok obs e rest hm hfb] at ho
        rcases List.mem_cons.mp ho with rfl | ho'
        · simpa [withArchiveFields] using hobs
        · exact ih _ (by simpa [withArchiveFields] using hobs) o ho'
      | archiveError msg =>
        by_cases henc : isEncryptionMsg msg = true
        · rw [scanEntries_cons_encMsg obs e rest msg hm hfb henc] at ho
          rcases List.mem_cons.mp ho with rfl | ho'
          · simp [withArchiveFields]
          · exact ih _ (by simp [withArchiveFields]) o ho'
        · rw [scanEntries_cons_abort obs e rest msg hm hfb (by simpa using henc)] at ho
          simp at ho
    · rw [scanEntries_cons_skip obs e rest (by simpa using hm)] at ho
      exact ih obs hobs o ho

/-- C9: within one archive scan, the emitted observation list is monotone in
the encrypted flag — whenever an earlier emitted observation carries
encrypted = true, every later emitted observation of the same scan carries
encrypted = true as well, readable or not, because each new entry observation
is copied from the previously emitted one and the flag is never cleared. -/
theorem c9_encrypted_sticky (obs : Obs) (entries : List Entry) :
    (scanEntries obs entries).Pairwise
      (fun a b => a.encrypted = some true → b.encrypted = some true) := by
  induction entries generalizing obs with
  | nil => simp [scanEntries]
  | cons e rest ih =>
    by_cases hm : entryMatches e = true
    · cases hfb : e.firstBlockRead with
      | ok =>
        rw [scanEntries_cons_ok obs e rest hm hfb]
        refine List.Pairwise.cons ?_ (ih _)
        intro b hb ha
        exact scanEntries_encrypted_mono rest _ (by simpa [withArchiveFields] using ha) b hb
      | archiveError msg =>
        by_cases henc : isEncryptionMsg msg = true
        · rw [scanEntries_cons_encMsg obs e rest msg hm hfb henc]
          refine List.Pairwise.cons ?_ (ih _)
          intro b hb _
          exact scanEntries_encrypted_mono rest _ (by simp [withArchiveFields]) b hb
        · rw [scanEntries_cons_abort obs e rest msg hm hfb (by simpa using henc)]
          exact List.Pairwise.nil
    · rw [scanEntries_cons_skip obs e rest (by simpa using hm)]
      exact ih obs

/-! Helper lemmas about the pipeline stages. -/

/-- The transcode command is invoked in every branch of the tail stages. -/
theorem stages_cmds_ne_nil (sts : List TranscriptionStatus) (cs : List Cmd)
    (track : TrackEntry) (task : TaskCfg) (env : Env) :
    (stages sts cs track task env).cmds ≠ [] := by
  unfold stages
  by_cases h1 : env.transcodeExit ≠ 0
  · simp [h1]
  · rcases hmo : task.models with _ | m
    · simp [h1, hmo]
    · by_cases h2 : env.transcribeExit ≠ 0 ∧ False
      · exact absurd h2.2 not_false
      · simp [h1, hmo, h2]

/-- The tail stages never modify the registry entry they are given. -/
theorem stages_entry (sts : List TranscriptionStatus) (cs : List Cmd)
    (track : TrackEntry) (task : TaskCfg) (env : Env) :
    (stages sts cs track task env).entry = track := by
  unfold stages
  by_cases h1 : env.transcodeExit ≠ 0
  · simp [h1]
  · rcases hmo : task.models with _ | m
    · simp [h1, hmo]
    · by_cases h2 : env.transcribeExit ≠ 0 ∧ False
      · exact absurd h2.2 not_false
      · simp [h1, hmo, h2]

/-- When the transcription command gets invoked by the tail stages (and was
not already in the accumulator), the transcode succeeded, a models key was
present, and the row runs to COMPLETED through RETURNING regardless of the
transcription exit code. -/
theorem stages_transcribe_shape (sts : List TranscriptionStatus) (cs : List Cmd)
    (track : TrackEntry) (task : TaskCfg) (env : Env)
    (h : Cmd.transcribe ∈ (stages sts cs track task env).cmds)
    (hcs : Cmd.transcribe ∉ cs) :
    stages sts cs track task env =
      { statuses := sts ++ [TranscriptionStatus.LOADING, TranscriptionStatus.TRANSCRIBING,
                            TranscriptionStatus.RETURNING, TranscriptionStatus.COMPLETED],
        cmds := cs ++ [Cmd.transcode, Cmd.transcribe], entry := track, crashed := false } := by
  unfold stages at h ⊢
  by_cases h1 : env.transcodeExit ≠ 0
  · simp [h1, hcs] at h
  · rcases hmo : task.models with _ | m
    · simp [h1, hmo, hcs] at h
    · by_cases h2 : env.transcribeExit ≠ 0 ∧ False
      · exact absurd h2.2 not_false
      · simp [h1, hmo, h2]

/-- The tail stages ignore the transcription exit code entirely: the failure
check behind it is disabled by the literal False conjunct. -/
theorem stages_ignores_transcribe_exit (sts : List TranscriptionStatus) (cs : List Cmd)
    (track : TrackEntry) (task : TaskCfg) (env : Env) (e : Int) :
    stages sts cs track task env = stages sts cs track task { env with transcribeExit := e } := by
  unfold stages
  simp

/-- Case shape of one row: it either leaves the registry entry alone, or the
entry is archive-sourced and only gains the extracted_path field. -/
theorem runRow_entry_shape (st : TranscriptionStatus) (track : TrackEntry)
    (task : TaskCfg) (env : Env) :
    (runRow st track task env).entry = track ∨
    ∃ ap, track.archive_path = some ap ∧
      (runRow st track task env).entry =
        { track with extracted_path := some (pathJoin track.path ap) } := by
  unfold runRow
  by_cases h1 : st ≠ TranscriptionStatus.WAITING
  · simp [h1]
  · by_cases h2 : track.encrypted.getD false = true
    · simp [h1, h2]
    · rcases ha : track.archive_path with _ | ap
      · simp [h1, h2, ha, stages_entry]
      · by_cases h3 : env.unpackExit ≠ 0
        · simp [h1, h2, ha, h3]
        · right
          exact ⟨ap, rfl, by simp [h1, h2, h3, stages_entry]⟩

/-- The whole row ignores the transcription exit code. -/
theorem runRow_ignores_transcribe_exit (st : TranscriptionStatus) (track : TrackEntry)
    (task : TaskCfg) (env : Env) (e : Int) :
    runRow st track task env = runRow st track task { env with transcribeExit := e } := by
  unfold runRow
  by_cases h1 : st ≠ TranscriptionStatus.WAITING
  · simp [h1]
  · by_cases h2 : track.encrypted.getD false = true
    · simp [h1, h2]
    · rcases ha : track.archive_path with _ | ap
      · simp [h1, h2, ha]
        exact stages_ignores_transcribe_exit _ _ _ _ _ e
      · by_cases h3 : env.unpackExit ≠ 0
        · simp [h1, h2, ha, h3]
        · simp [h1, h2, ha, h3]
          exact stages_ignores_transcribe_exit _ _ _ _ _ e

/-- When the transcription command gets invoked by a row, the row's status
history is the full successful sequence, with the unpack stage prepended for
archive-sourced entries. -/
theorem runRow_transcribe_shape (st : TranscriptionStatus) (track : TrackEntry)
    (task : TaskCfg) (env : Env)
    (h : Cmd.transcribe ∈ (runRow st track task env).cmds) :
    (runRow st track task env).statuses =
      [TranscriptionStatus.LOADING, TranscriptionStatus.TRANSCRIBING,
       TranscriptionStatus.RETURNING, TranscriptionStatus.COMPLETED] ∨
    (runRow st track task env).statuses =
      [TranscriptionStatus.UNPACKING, TranscriptionStatus.LOADING,
       TranscriptionStatus.TRANSCRIBING, TranscriptionStatus.RETURNING,
       TranscriptionStatus.COMPLETED] := by
  unfold runRow at h ⊢
  by_cases h1 : st ≠ TranscriptionStatus.WAITING
  · simp [h1] at h
  · by_cases h2 : track.encrypted.getD false = true
    · simp [h1, h2] at h
    · rcases ha : track.archive_path with _ | ap
      · rw [ha] at h
        simp [h1, h2] at h ⊢
        rw [stages_transcribe_shape [] [] track task env h (by simp)]
        simp
      · rw [ha] at h
        by_cases h3 : env.unpackExit ≠ 0
        · simp [h1, h2, h3] at h
        · simp [h1, h2, h3] at h ⊢
          rw [stages_transcribe_shape [TranscriptionStatus.UNPACKING] [Cmd.unpack] _ task env
            h (by simp)]
          simp

/-! Concrete inputs for the pipeline-side claims. -/

/-- Defaults carrying the stock model selection of the application. -/
def c1State : AppState := ⟨{ models := some ["large-v2", "diarize"] }, []⟩

/-- A plain, non-encrypted audio registry entry. -/
def c1Track : TrackEntry :=
  { path := "/media/song.mp3", mime := "audio/mpeg", format := "MPEG audio",
    size := 7, ctime := 0, mtime := 0 }

/-- An environment in which the transcription command exits 1. -/
def c1Env : Env := ⟨0, 0, 1⟩

/-- Defaults whose models list has been emptied. -/
def c2State : AppState := ⟨{ models := some [] }, []⟩

/-- A plain, non-encrypted audio registry entry. -/
def c2Track : TrackEntry :=
  { path := "/media/song.mp3", mime := "audio/mpeg", format := "MPEG audio",
    size := 7, ctime := 0, mtime := 0 }

/-- An environment in which every external command succeeds. -/
def c2Env : Env := ⟨0, 0, 0⟩

/-- Stock defaults for the C5 witness. -/
def c5State : AppState := ⟨{ models := some ["large-v2", "diarize"] }, []⟩

/-- An encrypted archive-member registry entry. -/
def c5Track : TrackEntry :=
  { path := "/media/b.zip", mime := "application/zip", format := "Zip archive",
    size := 9, ctime := 0, mtime := 0, archive_path := some "clip.wav",
    encrypted := some true }

/-- An environment in which every external command succeeds. -/
def c5Env : Env := ⟨0, 0, 0⟩

/-- Stock defaults for the C6 witness. -/
def c6State : AppState := ⟨{ models := some ["large-v2", "diarize"] }, []⟩

/-- A non-encrypted archive-member registry entry. -/
def c6Track : TrackEntry :=
  { path := "/media/b.zip", mime := "application/zip", format := "Zip archive",
    size := 9, ctime := 0, mtime := 0, archive_path := some "clip.wav" }

/-- An environment in which the unpack command exits 1. -/
def c6Env : Env := ⟨1, 0, 0⟩

/-- Stock defaults for the C8 theorems. -/
def c8State : AppState := ⟨{ models := some ["large-v2", "diarize"] }, []⟩

/-- A non-encrypted archive-member registry entry, with no extracted_path. -/
def c8Track : TrackEntry :=
  { path := "/media/b.zip", mime := "application/zip", format := "Zip archive",
    size := 99, ctime := 5, mtime := 6, archive_path := some "clip.wav",
    archive_size := some 10, archive_ctime := some 3, archive_mtime := some 4 }

/-- A plain audio registry entry for the C8 witness. -/
def c8Plain : TrackEntry :=
  { path := "/media/c.mp3", mime := "audio/mpeg", format := "MPEG audio",
    size := 1, ctime := 0, mtime := 0 }

/-- An environment in which every external command succeeds. -/
def c8Env : Env := ⟨0, 0, 0⟩

/-! Claim C1. -/

/-- C1: when the transcription command is invoked for a row, its exit code is
irrelevant — the whole row result is identical to the one with exit code 0,
no FAILED status is ever set, and the row proceeds through RETURNING to end at
COMPLETED. The failure check after the transcription stage is disabled by a
literal False conjunct in the code. -/
theorem c1_transcription_exit_ignored (s : AppState) (key : String)
    (track : TrackEntry) (env : Env)
    (h : Cmd.transcribe ∈ (processRow s key track env).cmds) :
    processRow s key track env = processRow s key track { env with transcribeExit := 0 } ∧
    (processRow s key track env).statuses.getLast? = some TranscriptionStatus.COMPLETED ∧
    TranscriptionStatus.RETURNING ∈ (processRow s key track env).statuses ∧
    TranscriptionStatus.FAILED ∉ (processRow s key track env).statuses := by
  refine ⟨runRow_ignores_transcribe_exit _ _ _ _ 0, ?_⟩
  rcases runRow_transcribe_shape (get_row_status s key) track (get_row_task s key).1 env h
    with hs | hs
  · rw [show (processRow s key track env).statuses =
        (runRow (get_row_status s key) track (get_row_task s key).1 env).statuses from rfl, hs]
    refine ⟨rfl, by simp, by simp⟩
  · rw [show (processRow s key track env).statuses =
        (runRow (get_row_status s key) track (get_row_task s key).1 env).statuses from rfl, hs]
    refine ⟨rfl, by simp, by simp⟩

/-- C1 witness: the theorem applied to a plain audio row under stock defaults
with a transcription exit code of 1. -/
theorem c1_transcription_exit_ignored_witness :
    processRow c1State "/media/song.mp3/0" c1Track c1Env =
      processRow c1State "/media/song.mp3/0" c1Track { c1Env with transcribeExit := 0 } ∧
    (processRow c1State "/media/song.mp3/0" c1Track c1Env).statuses.getLast? =
      some TranscriptionStatus.COMPLETED ∧
    TranscriptionStatus.RETURNING ∈
      (processRow c1State "/media/song.mp3/0" c1Track c1Env).statuses ∧
    TranscriptionStatus.FAILED ∉
      (processRow c1State "/media/song.mp3/0" c1Track c1Env).statuses :=
  c1_transcription_exit_ignored c1State "/media/song.mp3/0" c1Track c1Env (by decide)

/-! Claim C2. -/

/-- C2 counterexample: for a task whose resolved model set is empty and whose
stored status is WAITING, the rendered status is indeed SKIPPED, yet
process_queue — which consults only get_row_status, without the SKIPPED
derivation — runs the pipeline for that row: the transcode and transcription
commands are both invoked, against the claim's "no pipeline stage (no
external command) is ever run". -/
theorem c2_empty_models_pipeline_runs_cex :
    renderedStatus c2State "/media/song.mp3/0" = TranscriptionStatus.SKIPPED ∧
    get_row_status c2State "/media/song.mp3/0" = TranscriptionStatus.WAITING ∧
    (processRow c2State "/media/song.mp3/0" c2Track c2Env).cmds =
      [Cmd.transcode, Cmd.transcribe] :=
  ⟨by decide, by decide, by decide⟩

/-- C2 (amended): a task with an empty resolved model set and stored status
WAITING reports SKIPPED whenever its status is rendered, and the query leaves
the stored state untouched; however the task pipeline itself does not apply
this derivation — for every non-encrypted track it still invokes at least one
external command. -/
theorem c2_empty_models_rendered_skipped (s : AppState) (key : String)
    (hm : (get_row_task s key).1.models = some [])
    (hw : get_row_status s key = TranscriptionStatus.WAITING) :
    renderedStatus s key = TranscriptionStatus.SKIPPED ∧
    (get_row_task s key).2 = s ∧
    ∀ (track : TrackEntry) (env : Env),
      track.encrypted.getD false = false →
      (processRow s key track env).cmds ≠ [] := by
  refine ⟨?_, rfl, ?_⟩
  · unfold renderedStatus
    rw [if_pos ⟨hm, hw⟩]
  · intro track env he
    unfold processRow runRow
    rw [hw, he]
    rcases ha : track.archive_path with _ | ap
    · simp [stages_cmds_ne_nil]
    · by_cases h3 : env.unpackExit ≠ 0
      · simp [h3]
      · simp [h3, stages_cmds_ne_nil]

/-- C2 witness: the amended theorem applied to empty-model defaults and a
plain audio row. -/
theorem c2_empty_models_rendered_skipped_witness :
    renderedStatus c2State "/media/song.mp3/0" = TranscriptionStatus.SKIPPED ∧
    (processRow c2State "/media/song.mp3/0" c2Track c2Env).cmds ≠ [] :=
  ⟨(c2_empty_models_rendered_skipped c2State "/media/song.mp3/0" (by decide) (by decide)).1,
   (c2_empty_models_rendered_skipped c2State "/media/song.mp3/0" (by decide) (by decide)).2.2
     c2Track c2Env (by decide)⟩

/-! Claim C5. -/

/-- C5: a row whose queried status is WAITING and whose registry entry is
marked encrypted transitions directly to FAILED — the status history is the
single element FAILED — with no external command invoked and the registry
entry untouched. -/
theorem c5_encrypted_direct_fail (s : AppState) (key : String)
    (track : TrackEntry) (env : Env)
    (hw : get_row_status s key = TranscriptionStatus.WAITING)
    (he : track.encrypted.getD false = true) :
    processRow s key track env =
      { statuses := [TranscriptionStatus.FAILED], cmds := [],
        entry := track, crashed := false } := by
  unfold processRow runRow
  rw [hw, he]
  simp

/-- C5 witness: the theorem applied to an encrypted archive member under
stock defaults. -/
theorem c5_encrypted_direct_fail_witness :
    processRow c5State "/media/b.zip/clip.wav/0" c5Track c5Env =
      { statuses := [TranscriptionStatus.FAILED], cmds := [],
        entry := c5Track, crashed := false } :=
  c5_encrypted_direct_fail c5State "/media/b.zip/clip.wav/0" c5Track c5Env
    (by decide) (by decide)

/-! Claim C6. -/

/-- C6: for an archive-sourced row reached with queried status WAITING and not
encrypted, a non-zero unpack exit ends the row at FAILED having invoked only
the unpack command: the transcode and transcription commands never run and
the registry entry is untouched. -/
theorem c6_unpack_failure_aborts (s : AppState) (key : String)
    (track : TrackEntry) (env : Env) (ap : String)
    (hw : get_row_status s key = TranscriptionStatus.WAITING)
    (he : track.encrypted.getD false = false)
    (ha : track.archive_path = some ap)
    (hx : env.unpackExit ≠ 0) :
    processRow s key track env =
      { statuses := [TranscriptionStatus.UNPACKING, TranscriptionStatus.FAILED],
        cmds := [Cmd.unpack], entry := track, crashed := false } := by
  unfold processRow runRow
  rw [hw, he, ha]
  simp [hx]

/-- C6 witness: the theorem applied to an archive member whose unpack command
exits 1. -/
theorem c6_unpack_failure_aborts_witness :
    processRow c6State "/media/b.zip/clip.wav/0" c6Track c6Env =
      { statuses := [TranscriptionStatus.UNPACKING, TranscriptionStatus.FAILED],
        cmds := [Cmd.unpack], entry := c6Track, crashed := false } :=
  c6_unpack_failure_aborts c6State "/media/b.zip/clip.wav/0" c6Track c6Env "clip.wav"
    (by decide) (by decide) (by decide) (by decide)

/-! Claim C8. -/

/-- C8 counterexample: registry entries are not immutable. For an
archive-sourced row whose unpack succeeds, process_queue writes the
extracted_path key into the registered track dict: the entry starts without
the field and ends up carrying it. -/
theorem c8_registry_mutated_cex :
    c8Track.extracted_path = none ∧
    (processRow c8State "/media/b.zip/clip.wav/0" c8Track c8Env).entry.extracted_path =
      some "/media/b.zip/clip.wav" :=
  ⟨rfl, by decide⟩

/-- C8 (amended): a registry entry is never modified by the pipeline except in
one way — a successful unpack of an archive-sourced entry adds the
extracted_path field. Restoring that single field recovers the original entry
exactly, and an entry that is not archive-sourced is never modified at all. -/
theorem c8_registry_mutation_only_extracted_path (s : AppState) (key : String)
    (track : TrackEntry) (env : Env) :
    ({ (processRow s key track env).entry with
        extracted_path := track.extracted_path } = track) ∧
    (track.archive_path = none → (processRow s key track env).entry = track) := by
  have hsh := runRow_entry_shape (get_row_status s key) track (get_row_task s key).1 env
  constructor
  · rcases hsh with hent | ⟨ap, hap, hent⟩
    · rw [show (processRow s key track env).entry =
          (runRow (get_row_status s key) track (get_row_task s key).1 env).entry from rfl, hent]
    · rw [show (processRow s key track env).entry =
          (runRow (get_row_status s key) track (get_row_task s key).1 env).entry from rfl, hent]
  · intro hnone
    rcases hsh with hent | ⟨ap, hap, hent⟩
    · exact hent
    · rw [hnone] at hap
      exact absurd hap (by simp)

/-- C8 witness: the amended theorem applied to a plain (non-archive) audio
row, for which the entry is returned untouched. -/
theorem c8_registry_mutation_only_extracted_path_witness :
    ({ (processRow c8State "/media/c.mp3/0" c8Plain c8Env).entry with
        extracted_path := c8Plain.extracted_path } = c8Plain) ∧
    (processRow c8State "/media/c.mp3/0" c8Plain c8Env).entry = c8Plain :=
  ⟨(c8_registry_mutation_only_extracted_path c8State "/media/c.mp3/0" c8Plain c8Env).1,
   (c8_registry_mutation_only_extracted_path c8State "/media/c.mp3/0" c8Plain c8Env).2 rfl⟩

/-! Claim C10. -/

/-- C10: resolving a row's task is idempotent and side-effect free — the query
returns the application state unchanged, and querying again on the returned
state yields the identical merged result map. -/
theorem c10_get_row_task_idempotent (s : AppState) (key : String) :
    (get_row_task s key).2 = s ∧
    (get_row_task ((get_row_task s key).2) key).1 = (get_row_task s key).1 :=
  ⟨rfl, rfl⟩

end Wspsr
